import Mathlib

/-
Verification of the url_checker program (src/url_checker/url_checker.py)
against its natural-language specification.

The HTTP layer is modelled as an oracle `Net` mapping a HEAD request (URL,
timeout, optional User-Agent header) to either a response (status code plus
optional Location header) or an error string standing for the Python
exception / traceback raised by `requests.head`.  All functions below are
direct translations of the Python source; observable side effects (the HEAD
requests issued, the warning log line, the email handed to SMTP, the value
passed to sys.exit) are returned explicitly.
-/

deriving instance DecidableEq for Except

namespace UrlChecker

/-- An HTTP response as seen by the checker: the integer status code and the
optional `Location` header (`response.headers['Location']` in the source). -/
structure HttpResponse where
  status : Nat
  location : Option String
deriving DecidableEq, Repr

/-- One HEAD request as issued by `requests.head`: the URL, the timeout, and
the `User-Agent` header when one is sent (the source sends it on the first
request only, not on redirect follow-ups). -/
structure HeadRequest where
  url : String
  timeout : Nat
  userAgent : Option String
deriving DecidableEq, Repr

/-- The network oracle: what `requests.head` returns for a given request.
`Except.error e` stands for a raised exception (connection, DNS, timeout …)
with `e` its description. -/
abbrev Net := HeadRequest → Except String HttpResponse

/-- `max_3xx_checks = 5` in `validate_url`. -/
def max_3xx_checks : Nat := 5

/-- `response.status_code in range(300, 399)` — Python's `range(300, 399)`
contains 300, …, 398 and excludes 399. -/
def in_redirect_range (s : Nat) : Bool :=
  decide (300 ≤ s) && decide (s < 399)

/-- The `while` loop of `validate_url`: while the status is in
`range(300, 399)` and `checks_for_3xx <= max_3xx_checks`, follow the
`Location` header (issuing a HEAD request without a User-Agent header and
incrementing the counter) or break when there is no `Location` header.
Returns the final response together with the final counter value, or the
propagated exception; the second component is the list of HEAD requests the
loop issued. -/
def validate_url_loop (net : Net) (timeout : Nat) (response : HttpResponse)
    (checks_for_3xx : Nat) :
    Except String (HttpResponse × Nat) × List HeadRequest :=
  if h : in_redirect_range response.status = true ∧ checks_for_3xx ≤ max_3xx_checks then
    match response.location with
    | some loc =>
        let req : HeadRequest := { url := loc, timeout := timeout, userAgent := none }
        match net req with
        | .ok r =>
            let rest := validate_url_loop net timeout r (checks_for_3xx + 1)
            (rest.1, req :: rest.2)
        | .error e => (.error e, [req])
    | none => (.ok (response, checks_for_3xx), [])
  else (.ok (response, checks_for_3xx), [])
termination_by max_3xx_checks + 1 - checks_for_3xx
decreasing_by
  have h2 := h.2
  simp [max_3xx_checks] at h2 ⊢
  omega

/-- The outcome of `validate_url`: the returned status code or the
propagated exception, whether the "Too many redirects" warning was logged,
and the HEAD requests issued (in order). -/
structure CheckResult where
  result : Except String Nat
  warned : Bool
  requests : List HeadRequest
deriving DecidableEq, Repr

/-- `validate_url(url, timeout, user_agent)`: issue a HEAD request with the
`User-Agent` header, run the redirect loop, log the warning when
`checks_for_3xx >= max_3xx_checks`, and return the final status code.  A
raised exception propagates (so no warning is logged on that path). -/
def validate_url (net : Net) (url : String) (timeout : Nat) (user_agent : String) :
    CheckResult :=
  let req : HeadRequest := { url := url, timeout := timeout, userAgent := some user_agent }
  match net req with
  | .error e => { result := .error e, warned := false, requests := [req] }
  | .ok response =>
      let loop := validate_url_loop net timeout response 0
      { result :=
          match loop.1 with
          | .error e => .error e
          | .ok (final, _) => .ok final.status
        warned :=
          match loop.1 with
          | .error _ => false
          | .ok (_, checks) => decide (checks ≥ max_3xx_checks)
        requests := req :: loop.2 }

/-- One entry of the `downloads` list of the configuration.  The fields are
`Option` because `validate_config` checks for their presence (`'url' not in
download`, `'name' not in download`). -/
structure RawDownload where
  name : Option String
  url : Option String
deriving DecidableEq, Repr

/-- The configuration dictionary.  Each key that the program reads is a
field; `none` models the key being absent from the dictionary. -/
structure RawConfig where
  smtp_server : Option String
  smtp_port : Option Nat
  email_address : Option String
  email_password : Option String
  recipients : Option (List String)
  downloads : Option (List RawDownload)
  timeout : Option Nat
  user_agent : Option String
deriving DecidableEq, Repr

/-- Errors counted by the `expected_values` loop of `validate_config`: one
per missing required top-level key. -/
def missing_key_errors (c : RawConfig) : Nat :=
  (if c.smtp_server.isNone then 1 else 0) +
  (if c.smtp_port.isNone then 1 else 0) +
  (if c.email_address.isNone then 1 else 0) +
  (if c.email_password.isNone then 1 else 0) +
  (if c.recipients.isNone then 1 else 0) +
  (if c.downloads.isNone then 1 else 0)

/-- Errors counted for one download entry: one for a missing `url`, one for
a missing `name`. -/
def download_errors (d : RawDownload) : Nat :=
  (if d.url.isNone then 1 else 0) + (if d.name.isNone then 1 else 0)

/-- `validate_config(config)`: `False` when the configuration is `None`;
otherwise count one error per missing required key, per download entry
missing `url` or `name`, and for an empty recipients list, and return
`errors == 0`.  (The function also fills in `timeout = 5` when absent; the
model reads the timeout with that default in `main_run`.) -/
def validate_config (config : Option RawConfig) : Bool :=
  match config with
  | none => false
  | some c =>
      let errors :=
        missing_key_errors c +
        (match c.downloads with
         | some ds => (ds.map download_errors).sum
         | none => 0) +
        (match c.recipients with
         | some rs => if rs.length < 1 then 1 else 0
         | none => 0)
      errors == 0

/-- Detail string recorded when a HEAD request got a non-200 status code
(`"%s may not be available. An HTTP %s status code was received when
sending a HEAD request.\nURL: %s"`). -/
def status_detail (name : String) (status : Nat) (url : String) : String :=
  name ++ " may not be available. An HTTP " ++ toString status ++
  " status code was received when sending a HEAD request.\nURL: " ++ url

/-- Detail string recorded when the check raised an exception; `exc` stands
for `traceback.format_exc()`. -/
def exception_detail (name : String) (url : String) (exc : String) : String :=
  name ++ " may not be available. An exception was raised while sending a" ++
  " HEAD request to the URL below.\nURL: " ++ url ++ "\nException: " ++ exc

/-- The email message built by `send_email` (the `EmailMessage` the source
constructs and hands to SMTP). -/
structure Email where
  subject : String
  from_addr : String
  to_addr : String
  body : String
deriving DecidableEq, Repr

/-- `send_email(software, body, recipients, sender, …)`: builds the message
with `Subject: "%s unavailable" % software`, `From: sender`,
`To: ", ".join(recipients)` and the given body.  The SMTP transmission
itself is modelled by the `smtp_ok` flag of `main_run`. -/
def send_email (software : String) (body : String) (recipients : List String)
    (sender : String) : Email :=
  { subject := software ++ " unavailable"
    from_addr := sender
    to_addr := String.intercalate ", " recipients
    body := body }

/-- The per-download body of `main`'s `for` loop: check the URL; on a
non-200 status or a raised exception record `(name, detail)` as a failure,
otherwise record nothing.  The second component is the HEAD requests issued
while checking this download. -/
def check_download (net : Net) (timeout : Nat) (user_agent : String)
    (d : RawDownload) : Option (String × String) × List HeadRequest :=
  let url := d.url.getD ""
  let name := d.name.getD ""
  let r := validate_url net url timeout user_agent
  match r.result with
  | .ok status =>
      (if status ≠ 200 then some (name, status_detail name status url) else none,
       r.requests)
  | .error e => (some (name, exception_detail name url e), r.requests)

/-- `main`'s loop over `config['downloads']`, in configuration order. -/
def process_downloads (net : Net) (timeout : Nat) (user_agent : String)
    (ds : List RawDownload) : List (Option (String × String) × List HeadRequest) :=
  ds.map (check_download net timeout user_agent)

/-- The `user_agent` used by `main`: `config.get('user_agent', "%s's URL
availability checker" % os.environ['USER'])`. -/
def effective_user_agent (c : RawConfig) (env_user : String) : String :=
  c.user_agent.getD (env_user ++ "\x27s URL availability checker")

/-- The timeout used by `main`: `config['timeout']`, which
`validate_config` defaulted to 5 when absent. -/
def effective_timeout (c : RawConfig) : Nat :=
  c.timeout.getD 5

/-- The `(name, detail)` pairs accumulated in `names`/`msgs` by `main`, in
configuration order. -/
def run_failures (net : Net) (c : RawConfig) (env_user : String) :
    List (String × String) :=
  (process_downloads net (effective_timeout c) (effective_user_agent c env_user)
    (c.downloads.getD [])).filterMap (·.1)

/-- All HEAD requests issued during a run, in order. -/
def run_requests (net : Net) (c : RawConfig) (env_user : String) :
    List HeadRequest :=
  (process_downloads net (effective_timeout c) (effective_user_agent c env_user)
    (c.downloads.getD [])).flatMap (·.2)

/-- The observable outcome of one invocation of `main`: the value passed to
`sys.exit`, the email handed to `send_email` (`none` when no send was
attempted), whether it was actually transmitted, and the HEAD requests
issued. -/
structure MainResult where
  exit_code : Nat
  email : Option Email
  email_sent : Bool
  requests : List HeadRequest
deriving DecidableEq, Repr

/-- `main()`: validate the configuration (exiting 1 on failure before any
check), check every download in order, and if any failures were recorded
build the email (subject `", ".join(names)` handed to `send_email`, body
`"\n\n".join(msgs)`) and attempt to send it; an SMTP failure (`smtp_ok =
false`) is only logged.  Exit with the failure count. -/
def main_run (config : Option RawConfig) (net : Net) (env_user : String)
    (smtp_ok : Bool) : MainResult :=
  match config with
  | none => { exit_code := 1, email := none, email_sent := false, requests := [] }
  | some c =>
      if validate_config (some c) then
        let failures := run_failures net c env_user
        let names := failures.map (·.1)
        let msgs := failures.map (·.2)
        let errors := failures.length
        if msgs.isEmpty then
          { exit_code := errors, email := none, email_sent := false
            requests := run_requests net c env_user }
        else
          let msg := send_email (String.intercalate ", " names)
            (String.intercalate "\n\n" msgs) (c.recipients.getD [])
            (c.email_address.getD "")
          { exit_code := errors, email := some msg, email_sent := smtp_ok
            requests := run_requests net c env_user }
      else
        { exit_code := 1, email := none, email_sent := false, requests := [] }

/-! Helper lemmas about the redirect loop. -/

/-- A response without a `Location` header makes the loop stop at once,
whatever the status and counter are. -/
lemma validate_url_loop_no_location (net : Net) (timeout : Nat) (r : HttpResponse)
    (c : Nat) (h : r.location = none) :
    validate_url_loop net timeout r c = (.ok (r, c), []) := by
  rw [validate_url_loop.eq_def, h]
  split <;> rfl

/-- A status outside `range(300, 399)` makes the loop stop at once. -/
lemma validate_url_loop_not_redirect (net : Net) (timeout : Nat) (r : HttpResponse)
    (c : Nat) (h : in_redirect_range r.status = false) :
    validate_url_loop net timeout r c = (.ok (r, c), []) := by
  rw [validate_url_loop.eq_def]
  rw [dif_neg]
  simp [h]

/-- One follow-up step of the loop, when the status is a redirect, the cap
has not been reached, and a `Location` header is present. -/
lemma validate_url_loop_follow (net : Net) (timeout : Nat) (r : HttpResponse)
    (c : Nat) (loc : String) (h1 : in_redirect_range r.status = true)
    (h2 : c ≤ max_3xx_checks) (h3 : r.location = some loc) :
    validate_url_loop net timeout r c =
      match net { url := loc, timeout := timeout, userAgent := none } with
      | .ok rr =>
          ((validate_url_loop net timeout rr (c + 1)).1,
            { url := loc, timeout := timeout, userAgent := none } ::
              (validate_url_loop net timeout rr (c + 1)).2)
      | .error e => (.error e, [{ url := loc, timeout := timeout, userAgent := none }]) := by
  rw [validate_url_loop.eq_def]
  rw [dif_pos ⟨h1, h2⟩, h3]

/-- One follow-up step whose HEAD request succeeds. -/
lemma validate_url_loop_follow_ok (net : Net) (timeout : Nat) (r : HttpResponse)
    (c : Nat) (loc : String) (rr : HttpResponse)
    (h1 : in_redirect_range r.status = true) (h2 : c ≤ max_3xx_checks)
    (h3 : r.location = some loc)
    (h4 : net { url := loc, timeout := timeout, userAgent := none } = .ok rr) :
    validate_url_loop net timeout r c =
      ((validate_url_loop net timeout rr (c + 1)).1,
        { url := loc, timeout := timeout, userAgent := none } ::
          (validate_url_loop net timeout rr (c + 1)).2) := by
  rw [validate_url_loop_follow net timeout r c loc h1 h2 h3, h4]

/-- One follow-up step whose HEAD request raises: the error propagates. -/
lemma validate_url_loop_follow_error (net : Net) (timeout : Nat) (r : HttpResponse)
    (c : Nat) (loc : String) (e : String)
    (h1 : in_redirect_range r.status = true) (h2 : c ≤ max_3xx_checks)
    (h3 : r.location = some loc)
    (h4 : net { url := loc, timeout := timeout, userAgent := none } = .error e) :
    validate_url_loop net timeout r c =
      (.error e, [{ url := loc, timeout := timeout, userAgent := none }]) := by
  rw [validate_url_loop_follow net timeout r c loc h1 h2 h3, h4]

/-- Once the counter exceeds `max_3xx_checks`, the loop stops. -/
lemma validate_url_loop_cap (net : Net) (timeout : Nat) (r : HttpResponse)
    (c : Nat) (h : max_3xx_checks < c) :
    validate_url_loop net timeout r c = (.ok (r, c), []) := by
  rw [validate_url_loop.eq_def, dif_neg]
  intro hc
  exact absurd hc.2 (Nat.not_le.mpr h)

/-- When the loop ends normally, the final counter is the initial counter
plus the number of follow-up requests the loop issued. -/
lemma validate_url_loop_checks (net : Net) (timeout : Nat) (r : HttpResponse)
    (c : Nat) :
    ∀ r' c', (validate_url_loop net timeout r c).1 = .ok (r', c') →
      c' = c + (validate_url_loop net timeout r c).2.length := by
  induction r, c using validate_url_loop.induct net timeout with
  | case1 r c h loc hloc req rr hr ih =>
      intro r' c' hres
      rw [validate_url_loop.eq_def] at hres ⊢
      simp only [dif_pos h, hloc, hr] at hres ⊢
      have := ih r' c' hres
      simp at this ⊢
      omega
  | case2 r c h loc hloc req e he =>
      intro r' c' hres
      rw [validate_url_loop.eq_def] at hres
      simp only [dif_pos h, hloc, he] at hres
      cases hres
  | case3 r c h hloc =>
      intro r' c' hres
      rw [validate_url_loop_no_location net timeout r c hloc] at hres ⊢
      simp at hres ⊢
      omega
  | case4 r c h =>
      intro r' c' hres
      rw [validate_url_loop.eq_def] at hres ⊢
      simp only [dif_neg h] at hres ⊢
      simp at hres ⊢
      omega

/-! Concrete networks and configurations used to instantiate the theorems. -/

/-- A server chain with exactly 6 redirect responses (each with a
`Location` header) followed by a 200: `u0 → u1 → … → u6`, where
`u0 … u5` answer `301` and `u6` answers `200`. -/
def cnet_chain6 : Net := fun req =>
  if req.url = "u6" then .ok { status := 200, location := none }
  else if req.url = "u0" then .ok { status := 301, location := some "u1" }
  else if req.url = "u1" then .ok { status := 301, location := some "u2" }
  else if req.url = "u2" then .ok { status := 301, location := some "u3" }
  else if req.url = "u3" then .ok { status := 301, location := some "u4" }
  else if req.url = "u4" then .ok { status := 301, location := some "u5" }
  else if req.url = "u5" then .ok { status := 301, location := some "u6" }
  else .error "unknown host"

/-- A server chain with exactly 5 redirect responses followed by a 200:
`u0 … u4` answer `302`, `u5` answers `200`. -/
def cnet_chain5 : Net := fun req =>
  if req.url = "u5" then .ok { status := 200, location := none }
  else if req.url = "u0" then .ok { status := 302, location := some "u1" }
  else if req.url = "u1" then .ok { status := 302, location := some "u2" }
  else if req.url = "u2" then .ok { status := 302, location := some "u3" }
  else if req.url = "u3" then .ok { status := 302, location := some "u4" }
  else if req.url = "u4" then .ok { status := 302, location := some "u5" }
  else .error "unknown host"

/-- A server that always answers `302` with a `Location` header: an
unbounded redirect chain. -/
def cnet_redirect : Net := fun _ =>
  .ok { status := 302, location := some "loop" }

/-- A server answering `399` with a `Location` header on `a`, and `200`
everywhere else. -/
def cnet_399 : Net := fun req =>
  if req.url = "a" then .ok { status := 399, location := some "b" }
  else .ok { status := 200, location := none }

/-- A server answering `302` with `Location: b` on `a`, and `200`
everywhere else. -/
def cnet_302 : Net := fun req =>
  if req.url = "a" then .ok { status := 302, location := some "b" }
  else .ok { status := 200, location := none }

/-- A server answering `307` without a `Location` header on `a`. -/
def cnet_307 : Net := fun req =>
  if req.url = "a" then .ok { status := 307, location := none }
  else .ok { status := 200, location := none }

/-- A server where `urlA` answers `404`, `urlB` raises a connection error,
and everything else answers `200`. -/
def cnet_ab : Net := fun req =>
  if req.url = "urlA" then .ok { status := 404, location := none }
  else if req.url = "urlB" then .error "ConnectionError: connection refused"
  else .ok { status := 200, location := none }

/-- A server that always raises a timeout error. -/
def cnet_err : Net := fun _ => .error "Timeout: request timed out"

/-- A server that always answers `200`. -/
def cnet_ok : Net := fun _ => .ok { status := 200, location := none }

/-- A complete, valid configuration with downloads `A ↦ urlA` and
`B ↦ urlB`. -/
def cfg_ab : RawConfig :=
  { smtp_server := some "smtp.example.com"
    smtp_port := some 587
    email_address := some "checker@example.com"
    email_password := some "hunter2"
    recipients := some ["ops@example.com"]
    downloads := some [{ name := some "A", url := some "urlA" },
                       { name := some "B", url := some "urlB" }]
    timeout := some 5
    user_agent := some "ua" }

/-- A complete, valid configuration with an empty downloads list. -/
def cfg_empty_downloads : RawConfig :=
  { cfg_ab with downloads := some [] }

/-- `cfg_ab` with the `recipients` key removed. -/
def cfg_no_recipients : RawConfig :=
  { cfg_ab with recipients := none }

/-! Claim C2. -/

/-- Claim C2, counterexample: a response with status 399 carrying a
`Location` header is NOT treated as a redirect — `validate_url` issues no
follow-up request and returns 399 as the final status, because Python's
`range(300, 399)` excludes 399.  This refutes "every status code in the
range 300 to 399 inclusive that carries a Location header … issues a new
HEAD request". -/
theorem c2_counterexample :
    cnet_399 { url := "a", timeout := 5, userAgent := some "ua" } =
      .ok { status := 399, location := some "b" } ∧
    validate_url cnet_399 "a" 5 "ua" =
      { result := .ok 399, warned := false,
        requests := [{ url := "a", timeout := 5, userAgent := some "ua" }] } := by
  constructor
  · rfl
  · simp [validate_url, validate_url_loop.eq_def, cnet_399, in_redirect_range,
      max_3xx_checks]

/-- Claim C2 (amended): for every response status code in the range 300 to
398 inclusive (Python's `range(300, 399)`) that carries a Location header,
`validate_url` issues a new HEAD request to the Location; any status
outside 300–398 (in particular 399) terminates the loop immediately and is
returned as the final status. -/
theorem c2_redirect_class (net : Net) (url : String) (t : Nat) (ua : String)
    (s : Nat) (loc : Option String)
    (h : net { url := url, timeout := t, userAgent := some ua } =
      .ok { status := s, location := loc }) :
    ((300 ≤ s ∧ s < 399) → ∀ l, loc = some l →
      ∃ rest, (validate_url net url t ua).requests =
        { url := url, timeout := t, userAgent := some ua } ::
          { url := l, timeout := t, userAgent := none } :: rest) ∧
    (¬(300 ≤ s ∧ s < 399) →
      validate_url net url t ua =
        { result := .ok s, warned := false,
          requests := [{ url := url, timeout := t, userAgent := some ua }] }) := by
  constructor
  · intro hs l hl
    subst hl
    simp only [validate_url, h]
    rw [validate_url_loop_follow net t _ 0 l
      (by simp only [in_redirect_range, Bool.and_eq_true, decide_eq_true_eq]; omega)
      (by simp [max_3xx_checks]) rfl]
    cases hnet : net { url := l, timeout := t, userAgent := none } with
    | ok rr => exact ⟨_, rfl⟩
    | error e => exact ⟨[], rfl⟩
  · intro hs
    simp only [validate_url, h]
    rw [validate_url_loop_not_redirect net t _ 0
      (by simp only [in_redirect_range, Bool.and_eq_false_iff,
            decide_eq_false_iff_not]; omega)]
    simp [max_3xx_checks]

/-- Witness for C2: with a server answering 302/`Location: b` on `a`, a
follow-up request to `b` is issued; with a server answering 200, the single
status is final. -/
theorem c2_redirect_class_witness :
    (∃ rest, (validate_url cnet_302 "a" 5 "ua").requests =
      { url := "a", timeout := 5, userAgent := some "ua" } ::
        { url := "b", timeout := 5, userAgent := none } :: rest) ∧
    validate_url cnet_ok "x" 5 "ua" =
      { result := .ok 200, warned := false,
        requests := [{ url := "x", timeout := 5, userAgent := some "ua" }] } := by
  constructor
  · exact (c2_redirect_class cnet_302 "a" 5 "ua" 302 (some "b") rfl).1
      (by omega) "b" rfl
  · exact (c2_redirect_class cnet_ok "x" 5 "ua" 200 none rfl).2 (by omega)

/-! Claim C6. -/

/-- Claim C6: a redirect-class response (300–399) without a `Location`
header stops the chain: `validate_url` issues no further request and
returns that redirect status code itself (no error).  The second conjunct
states the same for a Location-less redirect response reached at any point
of the loop. -/
theorem c6_no_location (net : Net) (url : String) (t : Nat) (ua : String) (s : Nat)
    (h : net { url := url, timeout := t, userAgent := some ua } =
      .ok { status := s, location := none })
    (hs : 300 ≤ s ∧ s ≤ 399) :
    validate_url net url t ua =
      { result := .ok s, warned := false,
        requests := [{ url := url, timeout := t, userAgent := some ua }] } ∧
    ∀ (r : HttpResponse) (c : Nat), in_redirect_range r.status = true →
      r.location = none →
      validate_url_loop net t r c = (.ok (r, c), []) := by
  constructor
  · simp only [validate_url, h]
    rw [validate_url_loop_no_location net t _ 0 rfl]
    simp [max_3xx_checks]
  · intro r c _ hloc
    exact validate_url_loop_no_location net t r c hloc

/-- Witness for C6: a `307` response with no `Location` header on `a` is
returned as the final status after a single request. -/
theorem c6_no_location_witness :
    validate_url cnet_307 "a" 5 "ua" =
      { result := .ok 307, warned := false,
        requests := [{ url := "a", timeout := 5, userAgent := some "ua" }] } :=
  (c6_no_location cnet_307 "a" 5 "ua" 307 rfl (by omega)).1

/-! Claim C5. -/

/-- Claim C5: a connection/DNS/timeout error raised by any hop's HEAD
request makes the check yield an error outcome (never an integer status):
at the first hop the error is the whole result, and an error while
following a redirect propagates the same way; `main`'s loop records such a
target as a failure whose detail carries the exception description, and
processing a download list is elementwise, so the targets after the failing
one are still processed (the run is not aborted). -/
theorem c5_error_outcome (net : Net) (t : Nat) (ua name url e : String)
    (pre suf : List RawDownload) :
    (net { url := url, timeout := t, userAgent := some ua } = .error e →
      validate_url net url t ua =
        { result := .error e, warned := false,
          requests := [{ url := url, timeout := t, userAgent := some ua }] }) ∧
    (∀ (r : HttpResponse) (loc : String),
      net { url := url, timeout := t, userAgent := some ua } = .ok r →
      in_redirect_range r.status = true → r.location = some loc →
      net { url := loc, timeout := t, userAgent := none } = .error e →
      (validate_url net url t ua).result = .error e) ∧
    ((validate_url net url t ua).result = .error e →
      check_download net t ua { name := some name, url := some url } =
        (some (name, exception_detail name url e),
          (validate_url net url t ua).requests)) ∧
    (process_downloads net t ua (pre ++ { name := some name, url := some url } :: suf) =
      process_downloads net t ua pre ++
        check_download net t ua { name := some name, url := some url } ::
          process_downloads net t ua suf) := by
  refine ⟨?_, ?_, ?_, ?_⟩
  · intro h
    simp [validate_url, h]
  · intro r loc hok hredir hloc herr
    simp only [validate_url, hok]
    rw [validate_url_loop_follow net t r 0 loc hredir (by simp [max_3xx_checks]) hloc,
      herr]
  · intro hres
    simp only [check_download, Option.getD_some]
    rw [hres]
  · simp [process_downloads]

/-- Witness for C5: a server that always times out makes the check of
target `A` at `a` an error outcome, recorded with the exception detail,
and the surrounding list processing keeps its elementwise shape. -/
theorem c5_error_outcome_witness :
    validate_url cnet_err "a" 5 "ua" =
      { result := .error "Timeout: request timed out", warned := false,
        requests := [{ url := "a", timeout := 5, userAgent := some "ua" }] } ∧
    check_download cnet_err 5 "ua" { name := some "A", url := some "a" } =
      (some ("A", exception_detail "A" "a" "Timeout: request timed out"),
        [{ url := "a", timeout := 5, userAgent := some "ua" }]) := by
  have h := c5_error_outcome cnet_err 5 "ua" "A" "a" "Timeout: request timed out" [] []
  have h1 := h.1 rfl
  refine ⟨h1, ?_⟩
  have h3 := h.2.2.1 (by rw [h1])
  rw [h1] at h3
  exact h3

/-! Claim C3. -/

/-- Claim C3: for a chain of exactly 5 redirect responses, each with a
valid `Location`, followed by a 200 response, the final status is 200 —
the 5th redirect is still followed before the cap triggers (six requests
are issued in total). -/
theorem c3_five_redirects_then_200 (net : Net) (t : Nat) (ua : String)
    (u : Nat → String) (s : Nat → Nat) (finloc : Option String)
    (hredir : ∀ i, i ≤ 4 → in_redirect_range (s i) = true)
    (hfirst : net { url := u 0, timeout := t, userAgent := some ua } =
      .ok { status := s 0, location := some (u 1) })
    (hnext : ∀ i, 1 ≤ i → i ≤ 4 →
      net { url := u i, timeout := t, userAgent := none } =
        .ok { status := s i, location := some (u (i + 1)) })
    (hfinal : net { url := u 5, timeout := t, userAgent := none } =
      .ok { status := 200, location := finloc }) :
    validate_url net (u 0) t ua =
      { result := .ok 200, warned := true,
        requests := [{ url := u 0, timeout := t, userAgent := some ua },
                     { url := u 1, timeout := t, userAgent := none },
                     { url := u 2, timeout := t, userAgent := none },
                     { url := u 3, timeout := t, userAgent := none },
                     { url := u 4, timeout := t, userAgent := none },
                     { url := u 5, timeout := t, userAgent := none }] } := by
  simp only [validate_url, hfirst]
  rw [validate_url_loop_follow_ok net t _ 0 (u 1) _ (hredir 0 (by omega))
    (by simp [max_3xx_checks]) rfl (hnext 1 (by omega) (by omega))]
  rw [validate_url_loop_follow_ok net t _ 1 (u 2) _ (hredir 1 (by omega))
    (by simp [max_3xx_checks]) rfl (hnext 2 (by omega) (by omega))]
  rw [validate_url_loop_follow_ok net t _ 2 (u 3) _ (hredir 2 (by omega))
    (by simp [max_3xx_checks]) rfl (hnext 3 (by omega) (by omega))]
  rw [validate_url_loop_follow_ok net t _ 3 (u 4) _ (hredir 3 (by omega))
    (by simp [max_3xx_checks]) rfl (hnext 4 (by omega) (by omega))]
  rw [validate_url_loop_follow_ok net t _ 4 (u 5) _ (hredir 4 (by omega))
    (by simp [max_3xx_checks]) rfl hfinal]
  rw [validate_url_loop_not_redirect net t _ 5 (by rfl)]
  simp [max_3xx_checks]

/-- Witness for C3: the concrete 5-redirect chain `u0 → … → u5` ending in
200 yields final status 200 after six requests. -/
theorem c3_five_redirects_then_200_witness :
    validate_url cnet_chain5 "u0" 5 "ua" =
      { result := .ok 200, warned := true,
        requests := [{ url := "u0", timeout := 5, userAgent := some "ua" },
                     { url := "u1", timeout := 5, userAgent := none },
                     { url := "u2", timeout := 5, userAgent := none },
                     { url := "u3", timeout := 5, userAgent := none },
                     { url := "u4", timeout := 5, userAgent := none },
                     { url := "u5", timeout := 5, userAgent := none }] } := by
  have h := c3_five_redirects_then_200 cnet_chain5 5 "ua"
    (fun i => if i = 0 then "u0" else if i = 1 then "u1" else if i = 2 then "u2"
      else if i = 3 then "u3" else if i = 4 then "u4" else "u5")
    (fun _ => 302) none
    (fun i _ => rfl)
    (by rfl)
    (fun i h1 h2 => by interval_cases i <;> rfl)
    (by rfl)
  simpa using h

/-! Claim C1. -/

/-- Claim C1, counterexample: `cnet_chain6` is a chain of 6 redirect
responses (more than 5), each carrying a `Location` header, followed by a
200.  `validate_url` follows all six of them (the loop guard is
`checks_for_3xx <= 5`, so six follow-ups are permitted) and returns 200 —
not a redirect-class code and in particular not the 5th hop's redirect
status 301.  This refutes "stops following at the cap of 5 hops and
returns the 5th hop's redirect status code". -/
theorem c1_counterexample :
    cnet_chain6 { url := "u0", timeout := 5, userAgent := some "ua" } =
      .ok { status := 301, location := some "u1" } ∧
    cnet_chain6 { url := "u1", timeout := 5, userAgent := none } =
      .ok { status := 301, location := some "u2" } ∧
    cnet_chain6 { url := "u2", timeout := 5, userAgent := none } =
      .ok { status := 301, location := some "u3" } ∧
    cnet_chain6 { url := "u3", timeout := 5, userAgent := none } =
      .ok { status := 301, location := some "u4" } ∧
    cnet_chain6 { url := "u4", timeout := 5, userAgent := none } =
      .ok { status := 301, location := some "u5" } ∧
    cnet_chain6 { url := "u5", timeout := 5, userAgent := none } =
      .ok { status := 301, location := some "u6" } ∧
    cnet_chain6 { url := "u6", timeout := 5, userAgent := none } =
      .ok { status := 200, location := none } ∧
    validate_url cnet_chain6 "u0" 5 "ua" =
      { result := .ok 200, warned := true,
        requests := [{ url := "u0", timeout := 5, userAgent := some "ua" },
                     { url := "u1", timeout := 5, userAgent := none },
                     { url := "u2", timeout := 5, userAgent := none },
                     { url := "u3", timeout := 5, userAgent := none },
                     { url := "u4", timeout := 5, userAgent := none },
                     { url := "u5", timeout := 5, userAgent := none },
                     { url := "u6", timeout := 5, userAgent := none }] } ∧
    in_redirect_range 200 = false ∧ (200 : Nat) ≠ 301 := by
  refine ⟨rfl, rfl, rfl, rfl, rfl, rfl, rfl, ?_, rfl, by omega⟩
  simp [validate_url, validate_url_loop.eq_def, cnet_chain6, in_redirect_range,
    max_3xx_checks]

/-- Claim C1 (amended): the cap permits six follow-ups.  For every URL
whose redirect chain contains more than 6 redirect responses each carrying
a `Location` header, `validate_url` stops following after the 6th
follow-up request (seven requests in total), logs the "Too many redirects"
warning, and returns the 6th followed response's redirect status code as
the final status. -/
theorem c1_redirect_cap (net : Net) (t : Nat) (ua : String)
    (u : Nat → String) (s : Nat → Nat)
    (hredir : ∀ i, i ≤ 6 → in_redirect_range (s i) = true)
    (hfirst : net { url := u 0, timeout := t, userAgent := some ua } =
      .ok { status := s 0, location := some (u 1) })
    (hnext : ∀ i, 1 ≤ i → i ≤ 6 →
      net { url := u i, timeout := t, userAgent := none } =
        .ok { status := s i, location := some (u (i + 1)) }) :
    validate_url net (u 0) t ua =
      { result := .ok (s 6), warned := true,
        requests := [{ url := u 0, timeout := t, userAgent := some ua },
                     { url := u 1, timeout := t, userAgent := none },
                     { url := u 2, timeout := t, userAgent := none },
                     { url := u 3, timeout := t, userAgent := none },
                     { url := u 4, timeout := t, userAgent := none },
                     { url := u 5, timeout := t, userAgent := none },
                     { url := u 6, timeout := t, userAgent := none }] } := by
  simp only [validate_url, hfirst]
  rw [validate_url_loop_follow_ok net t _ 0 (u 1) _ (hredir 0 (by omega))
    (by simp [max_3xx_checks]) rfl (hnext 1 (by omega) (by omega))]
  rw [validate_url_loop_follow_ok net t _ 1 (u 2) _ (hredir 1 (by omega))
    (by simp [max_3xx_checks]) rfl (hnext 2 (by omega) (by omega))]
  rw [validate_url_loop_follow_ok net t _ 2 (u 3) _ (hredir 2 (by omega))
    (by simp [max_3xx_checks]) rfl (hnext 3 (by omega) (by omega))]
  rw [validate_url_loop_follow_ok net t _ 3 (u 4) _ (hredir 3 (by omega))
    (by simp [max_3xx_checks]) rfl (hnext 4 (by omega) (by omega))]
  rw [validate_url_loop_follow_ok net t _ 4 (u 5) _ (hredir 4 (by omega))
    (by simp [max_3xx_checks]) rfl (hnext 5 (by omega) (by omega))]
  rw [validate_url_loop_follow_ok net t _ 5 (u 6) _ (hredir 5 (by omega))
    (by simp [max_3xx_checks]) rfl (hnext 6 (by omega) (by omega))]
  rw [validate_url_loop_cap net t _ 6 (by simp [max_3xx_checks])]
  simp [max_3xx_checks]

/-- Witness for C1: against a server that always answers 302 with a
`Location` header (an unbounded redirect chain, so more than 6 redirect
responses), the check stops after six follow-ups and returns 302. -/
theorem c1_redirect_cap_witness :
    validate_url cnet_redirect "u0" 5 "ua" =
      { result := .ok 302, warned := true,
        requests := [{ url := "u0", timeout := 5, userAgent := some "ua" },
                     { url := "loop", timeout := 5, userAgent := none },
                     { url := "loop", timeout := 5, userAgent := none },
                     { url := "loop", timeout := 5, userAgent := none },
                     { url := "loop", timeout := 5, userAgent := none },
                     { url := "loop", timeout := 5, userAgent := none },
                     { url := "loop", timeout := 5, userAgent := none }] } := by
  have h := c1_redirect_cap cnet_redirect 5 "ua"
    (fun i => if i = 0 then "u0" else "loop") (fun _ => 302)
    (fun i _ => rfl)
    (by rfl)
    (fun i h1 h2 => by
      simp only [cnet_redirect]
      have : i + 1 ≠ 0 := by omega
      simp [this])
  simpa using h

/-! Claim C9. -/

/-- Claim C9: whenever `validate_url` returned a status code after
following 5 or more redirect hops (follow-up requests), the "Too many
redirects" warning was logged — the warning condition compares the hop
counter against the cap with `>=`, not whether the loop exited because of
the cap, so the warning fires even when the chain then terminated with a
status of 200 (see the witness). -/
theorem c9_warning_at_five_hops (net : Net) (url : String) (t : Nat) (ua : String)
    (h1 : ∃ s, (validate_url net url t ua).result = .ok s)
    (h2 : 5 ≤ (validate_url net url t ua).requests.length - 1) :
    (validate_url net url t ua).warned = true := by
  obtain ⟨s, hs⟩ := h1
  simp only [validate_url] at hs h2 ⊢
  cases hnet : net { url := url, timeout := t, userAgent := some ua } with
  | error e =>
      rw [hnet] at hs
      simp at hs
  | ok r =>
      rw [hnet] at hs h2
      dsimp only at hs h2 ⊢
      simp only [List.length_cons, Nat.add_sub_cancel] at h2
      cases hloop : (validate_url_loop net t r 0).1 with
      | error e =>
          rw [hloop] at hs
          simp at hs
      | ok p =>
          obtain ⟨fin, checks⟩ := p
          simp only [hloop]
          have hc := validate_url_loop_checks net t r 0 fin checks hloop
          simp [max_3xx_checks]
          omega

/-- Witness for C9: the 5-redirect chain ending in 200 logs the warning
even though the final status is 200. -/
theorem c9_warning_at_five_hops_witness :
    (validate_url cnet_chain5 "u0" 5 "ua").warned = true ∧
    (validate_url cnet_chain5 "u0" 5 "ua").result = .ok 200 := by
  constructor
  · exact c9_warning_at_five_hops cnet_chain5 "u0" 5 "ua"
      ⟨200, by simp [validate_url, validate_url_loop.eq_def, cnet_chain5,
        in_redirect_range, max_3xx_checks]⟩
      (by simp [validate_url, validate_url_loop.eq_def, cnet_chain5,
        in_redirect_range, max_3xx_checks])
  · simp [validate_url, validate_url_loop.eq_def, cnet_chain5,
      in_redirect_range, max_3xx_checks]

/-! Claim C7. -/

/-- Claim C7: for every run that passes configuration validation, the
process exit code equals the number of targets that failed; with zero
failing targets no email is sent and the process exits 0; and the SMTP
success flag does not change the exit code. -/
theorem c7_exit_code (c : RawConfig) (net : Net) (env_user : String)
    (hv : validate_config (some c) = true) :
    (∀ ok, (main_run (some c) net env_user ok).exit_code =
      (run_failures net c env_user).length) ∧
    (run_failures net c env_user = [] → ∀ ok,
      main_run (some c) net env_user ok =
        { exit_code := 0, email := none, email_sent := false,
          requests := run_requests net c env_user }) ∧
    (∀ ok1 ok2, (main_run (some c) net env_user ok1).exit_code =
      (main_run (some c) net env_user ok2).exit_code) := by
  refine ⟨?_, ?_, ?_⟩
  · intro ok
    by_cases hemp : ((run_failures net c env_user).map (·.2)).isEmpty = true
    · simp [main_run, hv, hemp]
    · simp only [Bool.not_eq_true] at hemp
      simp [main_run, hv, hemp]
  · intro hfail ok
    simp [main_run, hv, hfail]
  · intro ok1 ok2
    by_cases hemp : ((run_failures net c env_user).map (·.2)).isEmpty = true
    · simp [main_run, hv, hemp]
    · simp only [Bool.not_eq_true] at hemp
      simp [main_run, hv, hemp]

/-- Witness for C7: a fully valid configuration whose two targets both
answer 200 sends no email and exits 0 after two HEAD requests. -/
theorem c7_exit_code_witness :
    main_run (some cfg_ab) cnet_ok "user" true =
      { exit_code := 0, email := none, email_sent := false,
        requests := [{ url := "urlA", timeout := 5, userAgent := some "ua" },
                     { url := "urlB", timeout := 5, userAgent := some "ua" }] } := by
  have hfail : run_failures cnet_ok cfg_ab "user" = [] := by
    simp [run_failures, process_downloads, check_download, validate_url,
      validate_url_loop.eq_def, in_redirect_range, max_3xx_checks, cnet_ok,
      cfg_ab, effective_timeout, effective_user_agent]
  have h := (c7_exit_code cfg_ab cnet_ok "user" rfl).2.1 hfail true
  rw [h]
  simp [run_requests, process_downloads, check_download, validate_url,
    validate_url_loop.eq_def, in_redirect_range, max_3xx_checks, cnet_ok,
    cfg_ab, effective_timeout, effective_user_agent]

/-! Claim C10. -/

/-- Claim C10: a configuration that passes validation and has an empty
downloads list issues no HTTP requests, sends no email, and exits 0. -/
theorem c10_no_downloads (c : RawConfig) (net : Net) (env_user : String) (ok : Bool)
    (hv : validate_config (some c) = true) (hd : c.downloads = some []) :
    main_run (some c) net env_user ok =
      { exit_code := 0, email := none, email_sent := false, requests := [] } := by
  simp [main_run, hv, run_failures, run_requests, process_downloads, hd]

/-- Witness for C10: the concrete valid configuration with no downloads. -/
theorem c10_no_downloads_witness :
    main_run (some cfg_empty_downloads) cnet_ok "user" true =
      { exit_code := 0, email := none, email_sent := false, requests := [] } :=
  c10_no_downloads cfg_empty_downloads cnet_ok "user" true rfl rfl

/-! Claim C8. -/

/-- Claim C8: a configuration missing one of the six required top-level
keys, or with a download entry missing `name` or `url`, or with an empty
recipients list, fails validation, and the run then exits 1 having issued
no HEAD request and sent no email. -/
theorem c8_config_errors (c : RawConfig) (net : Net) (env_user : String) (ok : Bool)
    (h : c.smtp_server = none ∨ c.smtp_port = none ∨ c.email_address = none ∨
      c.email_password = none ∨ c.recipients = none ∨ c.downloads = none ∨
      (∃ d ∈ c.downloads.getD [], d.name = none ∨ d.url = none) ∨
      c.recipients = some []) :
    validate_config (some c) = false ∧
    main_run (some c) net env_user ok =
      { exit_code := 1, email := none, email_sent := false, requests := [] } := by
  have hv : validate_config (some c) = false := by
    simp only [validate_config, beq_eq_false_iff_ne, ne_eq]
    intro htot
    rcases h with h | h | h | h | h | h | ⟨d, hd, hmiss⟩ | h
    · simp [missing_key_errors, h] at htot
    · simp [missing_key_errors, h] at htot
    · simp [missing_key_errors, h] at htot
    · simp [missing_key_errors, h] at htot
    · simp [missing_key_errors, h] at htot
    · simp [missing_key_errors, h] at htot
    · cases hds : c.downloads with
      | none =>
          rw [hds] at hd
          simp at hd
      | some ds =>
          rw [hds] at hd
          simp only [Option.getD_some] at hd
          have h1 : 1 ≤ download_errors d := by
            rcases hmiss with hm | hm <;> simp [download_errors, hm]
          have h2 : download_errors d ≤ (ds.map download_errors).sum :=
            List.single_le_sum (fun x _ => Nat.zero_le x) _
              (List.mem_map_of_mem _ hd)
          rw [hds] at htot
          simp at htot
          omega
    · simp [h] at htot
  refine ⟨hv, ?_⟩
  simp [main_run, hv]

/-- Witness for C8: the configuration with the `recipients` key removed is
rejected and the run exits 1 with no requests. -/
theorem c8_config_errors_witness :
    validate_config (some cfg_no_recipients) = false ∧
    main_run (some cfg_no_recipients) cnet_ok "user" true =
      { exit_code := 1, email := none, email_sent := false, requests := [] } :=
  c8_config_errors cfg_no_recipients cnet_ok "user" true
    (Or.inr (Or.inr (Or.inr (Or.inr (Or.inl rfl)))))

/-! Claim C4. -/

/-- Claim C4, counterexample: with failing targets named `A` (HTTP 404) and
`B` (connection error), a single email is attempted, but its subject is
`"A, B unavailable"` — `send_email` appends `" unavailable"` to the
comma-joined names handed to it — not `"A, B"` as the claim states. -/
theorem c4_counterexample :
    (main_run (some cfg_ab) cnet_ab "user" true).email.map Email.subject =
      some "A, B unavailable" ∧
    "A, B unavailable" ≠ "A, B" := by
  constructor
  · simp [main_run, run_failures, run_requests, process_downloads, check_download,
      validate_url, validate_url_loop.eq_def, in_redirect_range, max_3xx_checks,
      cnet_ab, cfg_ab, effective_timeout, effective_user_agent, send_email,
      status_detail, exception_detail, validate_config, missing_key_errors,
      download_errors]
    decide
  · decide

/-- Claim C4 (amended): for every run with at least one failing target,
exactly one email is built and its subject is the comma-joined names of the
failing targets in recording (configuration) order followed by
`" unavailable"`; with failing targets `A` and `B` the subject is
`"A, B unavailable"` (see the witness). -/
theorem c4_email_subject (c : RawConfig) (net : Net) (env_user : String)
    (smtp_ok : Bool) (hv : validate_config (some c) = true)
    (hf : run_failures net c env_user ≠ []) :
    (main_run (some c) net env_user smtp_ok).email =
      some (send_email
        (String.intercalate ", " ((run_failures net c env_user).map Prod.fst))
        (String.intercalate "\n\n" ((run_failures net c env_user).map Prod.snd))
        (c.recipients.getD []) (c.email_address.getD "")) ∧
    (∀ m, (main_run (some c) net env_user smtp_ok).email = some m →
      m.subject =
        String.intercalate ", " ((run_failures net c env_user).map Prod.fst) ++
          " unavailable") ∧
    (main_run (some c) net env_user smtp_ok).email_sent = smtp_ok := by
  have hemp : ((run_failures net c env_user).map (·.2)).isEmpty = false := by
    cases hl : run_failures net c env_user with
    | nil => exact absurd hl hf
    | cons a l => simp
  have hmain : (main_run (some c) net env_user smtp_ok).email =
      some (send_email
        (String.intercalate ", " ((run_failures net c env_user).map Prod.fst))
        (String.intercalate "\n\n" ((run_failures net c env_user).map Prod.snd))
        (c.recipients.getD []) (c.email_address.getD "")) := by
    simp [main_run, hv, hemp]
  refine ⟨hmain, ?_, ?_⟩
  · intro m hm
    rw [hmain] at hm
    cases hm
    rfl
  · simp [main_run, hv, hemp]

/-- Witness for C4: the concrete run with failing targets `A` and `B`
builds exactly one email and attempts the send. -/
theorem c4_email_subject_witness :
    (main_run (some cfg_ab) cnet_ab "user" true).email =
      some (send_email
        (String.intercalate ", " ((run_failures cnet_ab cfg_ab "user").map Prod.fst))
        (String.intercalate "\n\n" ((run_failures cnet_ab cfg_ab "user").map Prod.snd))
        (cfg_ab.recipients.getD []) (cfg_ab.email_address.getD "")) ∧
    (main_run (some cfg_ab) cnet_ab "user" true).email_sent = true := by
  have hf : run_failures cnet_ab cfg_ab "user" ≠ [] := by
    simp [run_failures, process_downloads, check_download, validate_url,
      validate_url_loop.eq_def, in_redirect_range, max_3xx_checks, cnet_ab,
      cfg_ab, effective_timeout, effective_user_agent]
  have h := c4_email_subject cfg_ab cnet_ab "user" true rfl hf
  exact ⟨h.1, h.2.2⟩

end UrlChecker
